import Mathlib

/-!
Verification of the eDIN+ NPU client core
(`custom_components/edinplus/edinplus.py`, `custom_components/edinplus/scenes.py`
and `custom_components/edinplus/const.py`).

The Python source is shallowly embedded: pure computations become Lean
functions, object state becomes explicit record passing, Python exceptions
(`ValueError` from `int()`, `IndexError` from list indexing, `KeyError` from
dict lookups, `AttributeError` from missing attributes) become `Option`
results where `none` marks the raised exception.  Timestamps
(`datetime.now(timezone.utc)` values and their second-differences) are
modelled as rationals.  Only warning-level logging is modelled (as explicit
`Warn` values); debug/info/error log lines are modelled only insofar as the
f-string expressions they evaluate can raise.
-/

namespace EdinPlus

/-! ## Python string primitives -/

/-- Python `pat in s` (substring containment) on character lists. -/
def listHasSub (pat : List Char) : List Char → Bool
  | [] => pat.isEmpty
  | c :: t => pat.isPrefixOf (c :: t) || listHasSub pat t

/-- Python `pat in s` for strings. -/
def strHasSub (s pat : String) : Bool := listHasSub pat.toList s.toList

/-- Python `s.split(sep)` for a one-character separator (the only kind the
source uses): empty input yields `[""]`, like Python. -/
def splitOnCharAux (sep : Char) : List Char → List Char → List String
  | [], acc => [String.mk acc.reverse]
  | c :: rest, acc =>
    if c = sep then String.mk acc.reverse :: splitOnCharAux sep rest []
    else splitOnCharAux sep rest (c :: acc)

/-- Python `s.split(sep)` (one-character separator). -/
def pySplit (s : String) (sep : Char) : List String := splitOnCharAux sep s.toList []

/-- Python slice `s[:n]`. -/
def pyTake (s : String) (n : Nat) : String := String.mk (s.toList.take n)

/-- Python `s.startswith(pat)`. -/
def pyStartswith (s pat : String) : Bool := pat.toList.isPrefixOf s.toList

/-- Value of a decimal digit character, `none` for non-digits. -/
def digitVal (c : Char) : Option Nat :=
  if c.isDigit then some (c.toNat - 48) else none

/-- Parse a non-empty all-digit character list as a natural number. -/
def digitsToNat (cs : List Char) : Option Nat :=
  if cs.isEmpty then none
  else cs.foldl (fun acc c => acc.bind fun n => (digitVal c).map fun d => n * 10 + d) (some 0)

/-- Python `int(s)`: strip surrounding whitespace, optional sign, decimal
digits; `none` models the `ValueError` raised on any other input. -/
def pyInt (s : String) : Option Int :=
  let cs := ((s.toList.dropWhile Char.isWhitespace).reverse.dropWhile Char.isWhitespace).reverse
  match cs with
  | '-' :: rest => (digitsToNat rest).map fun n => -(n : Int)
  | '+' :: rest => (digitsToNat rest).map fun n => (n : Int)
  | _ => (digitsToNat cs).map fun n => (n : Int)

/-- Python `str.splitlines()` (splitting on `\n`, `\r` and `\r\n`,
dropping the terminators and producing no trailing empty line). -/
def splitlinesAux : List Char → List Char → List String
  | [], acc => if acc.isEmpty then [] else [String.mk acc.reverse]
  | '\r' :: '\n' :: rest, acc => String.mk acc.reverse :: splitlinesAux rest []
  | '\r' :: rest, acc => String.mk acc.reverse :: splitlinesAux rest []
  | '\n' :: rest, acc => String.mk acc.reverse :: splitlinesAux rest []
  | c :: rest, acc => splitlinesAux rest (c :: acc)

/-- Python `s.splitlines()`. -/
def pySplitlines (s : String) : List String := splitlinesAux s.toList []

/-- Python `str(i)` for an `int` (decimal digits, `-` sign for negatives);
Lean's `Int` printing agrees with Python's. -/
def pyStr (i : Int) : String := toString i

/-- f-string rendering of an `Optional[str]`: `None` renders as `"None"`. -/
def optStr : Option String → String
  | none => "None"
  | some s => s

/-- Python `s.zfill(w)` as used on the decimal renderings in the source. -/
def pyZfill (w : Nat) (s : String) : String :=
  if s.toList.length < w then String.mk (List.replicate (w - s.toList.length) '0') ++ s else s

/-! ## Lookup tables from `const.py` -/

/-- `NEWSTATE_TO_BUTTONEVENT` from `const.py`; `none` models the `KeyError`
raised by `NEWSTATE_TO_BUTTONEVENT[k]` for a key outside the table. -/
def NEWSTATE_TO_BUTTONEVENT : Int → Option String
  | 0 => some "Release-off"
  | 1 => some "Press-on"
  | 2 => some "Hold-on"
  | 5 => some "Short-press"
  | 6 => some "Hold-off"
  | _ => none

/-- `DEVCODE_TO_PRODNAME` from `const.py` (`none` = `KeyError`). -/
def DEVCODE_TO_PRODNAME : Int → Option String
  | 1 => some "LCD Wall Plate"
  | 2 => some "2, 5 and 10 button Wall Plates, Coolbrium & Icon plates"
  | 4 => some "Evo 2-channel Relay Module"
  | 8 => some "All Legacy Evo Slave Packs"
  | 9 => some "Evo 4 & 8 channel Contact Input modules"
  | 12 => some "eDIN 2A 8 channel leading edge dimmer module"
  | 13 => some "eDIN 3A 4 channel trailing edge dimmer module"
  | 14 => some "eDIN 3A 4 channel leading edge dimmer module"
  | 15 => some "eDIN 8 channel IO module"
  | 16 => some "eDIN 5A 4 channel relay module"
  | 17 => some "eDIN Universal Ballast Control module"
  | 18 => some "eDIN 8 channel Configurable Output module"
  | 19 => some "All eDIN Dimmer Packs"
  | 21 => some "All eDIN Rotary switch wall plates"
  | 24 => some "eDIN Multi-sensor (both Mk1 and Mk2)"
  | 30 => some "MBus splitter module"
  | 144 => some "eDIN 5A 4 channel mains sync relay module"
  | 145 => some "eDIN Universal Ballast Control 2 module"
  | _ => none

/-- `STATUSCODE_TO_SUMMARY` from `const.py` (`none` = `KeyError`). -/
def STATUSCODE_TO_SUMMARY : Int → Option String
  | 0 => some "Status Ok"
  | 2 => some "Device missing"
  | 3 => some "Channel Errors"
  | 4 => some "Bad Device Firmware"
  | 5 => some "No AC"
  | 6 => some "Too Hot"
  | 7 => some "Override Active"
  | 8 => some "Internal Failure"
  | 9 => some "DALI Fixture Errors"
  | 10 => some "Channel Load Failure"
  | 20 => some "No DALI PSU"
  | 21 => some "No DALI Commissioning Data"
  | 22 => some "DALI Commissioning problem"
  | 25 => some "DALI Lamp failure"
  | 26 => some "DALI missing ballast"
  | _ => none

/-- `STATUSCODE_TO_DESC` from `const.py`, abbreviated to the status keys the
warning text interpolates (`none` = `KeyError`); the table has exactly the
same key set as `STATUSCODE_TO_SUMMARY`. -/
def STATUSCODE_TO_DESC (k : Int) : Option String :=
  (STATUSCODE_TO_SUMMARY k).map fun _ => "desc-" ++ pyStr k

/-! ## Reconnect backoff (`edinplus_NPU_instance._ensure_connected`)

One loop iteration of `_ensure_connected` from the point of view of the
stored `_reconnect_delay`:

* `open_connection` raising (`connectFail`): the delay is untouched, the
  retry wait uses the current delay, then
  `_reconnect_delay = min(_reconnect_delay * 2, max_reconnect_delay)`.
* `open_connection` succeeding: `_reconnect_delay` is immediately reset to
  `config.reconnect_delay` (line 389, before the handshake).  If the
  handshake read is empty (`handshakeEmpty`) or an unexpected token
  (`handshakeWrong`) the attempt fails: the wait uses the freshly *reset*
  delay and the doubling then applies to it.  If it returns `!GATRDY;`
  (`handshakeOk`) the function returns with the delay at the minimum.
-/

structure BackoffConfig where
  reconnect_delay : ℚ
  max_reconnect_delay : ℚ
  deriving DecidableEq, Repr

inductive AttemptOutcome
  | connectFail
  | handshakeEmpty
  | handshakeWrong
  | handshakeOk
  deriving DecidableEq, Repr

structure EnsureResult where
  /-- final stored `_reconnect_delay` -/
  delay : ℚ
  /-- the reconnect waits performed, in order -/
  waits : List ℚ
  /-- whether the function returned with an established session -/
  connected : Bool
  deriving DecidableEq, Repr

/-- `_ensure_connected` run against a script of per-attempt outcomes,
starting from stored delay `d`.  The list ending corresponds to the stop
event interrupting the loop. -/
def ensureConnectedRun (cfg : BackoffConfig) : ℚ → List AttemptOutcome → EnsureResult
  | d, [] => ⟨d, [], false⟩
  | d, .connectFail :: os =>
    let r := ensureConnectedRun cfg (min (d * 2) cfg.max_reconnect_delay) os
    ⟨r.delay, d :: r.waits, r.connected⟩
  | _, .handshakeOk :: _ => ⟨cfg.reconnect_delay, [], true⟩
  | _, .handshakeEmpty :: os =>
    let d' := cfg.reconnect_delay
    let r := ensureConnectedRun cfg (min (d' * 2) cfg.max_reconnect_delay) os
    ⟨r.delay, d' :: r.waits, r.connected⟩
  | _, .handshakeWrong :: os =>
    let d' := cfg.reconnect_delay
    let r := ensureConnectedRun cfg (min (d' * 2) cfg.max_reconnect_delay) os
    ⟨r.delay, d' :: r.waits, r.connected⟩

/-! ## System-info polling (`edinplus_NPU_instance.async_edinplus_check_systeminfo`) -/

/-- Fingerprint fields of the NPU instance (all `Optional[str]`, `None`
until first populated). -/
structure SysState where
  serial_num : Option String
  edit_stamp : Option String
  adjust_stamp : Option String
  deriving DecidableEq, Repr

/-- `async_edinplus_check_systeminfo` after the two HTTP fetches, fed the
result of `re.findall(r"!SYSTEMID,(\d+),(\d+-\d+),(\d+-\d+)", levels)[0]`
(`none` when the payload was falsy or the regex found nothing).  Returns
whether rediscovery was triggered, and the updated fingerprint state.
Note the source compares only `edit_stamp` and `adjust_stamp`
(`if self.edit_stamp != edit_stamp or self.adjust_stamp != adjust_stamp`);
the serial number is not part of the comparison. -/
def async_edinplus_check_systeminfo (st : SysState) :
    Option (String × String × String) → Bool × SysState
  | none => (false, st)
  | some (serial, edit, adjust) =>
    if st.edit_stamp ≠ some edit ∨ st.adjust_stamp ≠ some adjust then
      (true, ⟨some serial, some edit, some adjust⟩)
    else
      (false, st)

/-! ## Keep-alive watchdog (`edinplus_NPU_instance._keepalive_loop`)

One tick of the loop body after the interval wait, for a tick on which the
session is online (the `continue` for offline ticks sends no probe and is
outside the scope of the per-tick claim).  `sendOk = false` models
`tcp_send_message` raising `RuntimeError`/`OSError`; `sentAt` is the
`keepalive_sent_at` recorded just before the send; `now` is
`datetime.now(timezone.utc)` when the post-`sleep(keep_alive_timeout)`
evaluation happens.  The 1-second grace constant is the literal `1.0` at
line 516 of the source. -/

structure KeepaliveConfig where
  keep_alive_timeout : ℚ
  comms_max_retry_attempts : Nat
  deriving DecidableEq, Repr

structure KeepaliveState where
  comms_retry_attempts : Nat
  last_keepalive_ack : Option ℚ
  /-- reader/writer present and `online` flag (collapsed: the source drops
  all three together) -/
  online : Bool
  deriving DecidableEq, Repr

structure KeepaliveTickResult where
  state : KeepaliveState
  /-- number of `comms_retry_attempts += 1` operations performed this tick -/
  increments : Nat
  /-- whether the tick force-closed the socket (max retries reached) -/
  dropped : Bool
  deriving DecidableEq, Repr

/-- Escalation shared by both failure paths: on reaching
`comms_max_retry_attempts` the socket is closed, `online` cleared and the
counter reset to zero. -/
def keepaliveEscalate (cfg : KeepaliveConfig) (st : KeepaliveState) : KeepaliveState × Bool :=
  if st.comms_retry_attempts ≥ cfg.comms_max_retry_attempts then
    ({ comms_retry_attempts := 0, last_keepalive_ack := st.last_keepalive_ack, online := false },
     true)
  else (st, false)

/-- One online tick of `_keepalive_loop` (source lines 462-558). -/
def keepaliveTick (cfg : KeepaliveConfig) (st : KeepaliveState)
    (sendOk : Bool) (sentAt now : ℚ) : KeepaliveTickResult :=
  if ¬ sendOk then
    -- `except (RuntimeError, OSError)`: increment, maybe escalate, `continue`
    let st1 := { st with comms_retry_attempts := st.comms_retry_attempts + 1 }
    let (st2, dropped) := keepaliveEscalate cfg st1
    ⟨st2, 1, dropped⟩
  else
    let step : KeepaliveState × Nat :=
      match st.last_keepalive_ack with
      | none =>
        -- No `!OK;` ever received yet
        ({ st with comms_retry_attempts := st.comms_retry_attempts + 1 }, 1)
      | some ack =>
        if ack ≥ sentAt then
          -- Received fresh acknowledgement
          ({ st with comms_retry_attempts := 0 }, 0)
        else if now - ack ≤ cfg.keep_alive_timeout + 1 then
          -- Recent enough acknowledgement (from previous keep-alive)
          ({ st with comms_retry_attempts := 0 }, 0)
        else
          -- No recent acknowledgement
          ({ st with comms_retry_attempts := st.comms_retry_attempts + 1 }, 1)
    let (st2, dropped) := keepaliveEscalate cfg step.1
    ⟨st2, step.2, dropped⟩

/-! ## Device entities (`edinplus_dimmer_channel_instance`,
`edinplus_relay_channel_instance`, `edinplus_relay_pulse_instance`,
`edinplus_input_binary_sensor_instance`) -/

/-- State of an `edinplus_dimmer_channel_instance` (`_is_on` and
`_brightness` are `None` until the first state report or command). -/
structure DimmerState where
  address : Int
  channel : Int
  name : String
  area : String
  model : String
  devcode : Int
  is_on : Option Bool
  brightness : Option Int
  deriving DecidableEq, Repr

/-- `edinplus_dimmer_channel_instance.__init__`. -/
def DimmerState.init (address channel : Int) (name area model : String)
    (devcode : Int) : DimmerState :=
  ⟨address, channel, name, area, model, devcode, none, none⟩

/-- State of an `edinplus_relay_channel_instance`. -/
structure RelayState where
  address : Int
  channel : Int
  name : String
  area : String
  model : String
  devcode : Int
  is_on : Option Bool
  deriving DecidableEq, Repr

/-- `edinplus_relay_channel_instance.__init__`. -/
def RelayState.init (address channel : Int) (name area model : String)
    (devcode : Int) : RelayState :=
  ⟨address, channel, name, area, model, devcode, none⟩

/-- State of an `edinplus_relay_pulse_instance` (write-only actuator). -/
structure PulseState where
  address : Int
  channel : Int
  name : String
  area : String
  model : String
  devcode : Int
  pulse_time : Int
  deriving DecidableEq, Repr

/-- `edinplus_relay_pulse_instance.__init__` (`pulse_time = 1000`). -/
def PulseState.init (address channel : Int) (name area model : String)
    (devcode : Int) : PulseState :=
  ⟨address, channel, name, area, model, devcode, 1000⟩

/-- State of an `edinplus_input_binary_sensor_instance`. -/
structure SensorState where
  address : Int
  channel : Int
  name : String
  area : String
  model : String
  devcode : Int
  is_on : Option Bool
  deriving DecidableEq, Repr

/-- `edinplus_input_binary_sensor_instance.__init__`. -/
def SensorState.init (address channel : Int) (name area model : String)
    (devcode : Int) : SensorState :=
  ⟨address, channel, name, area, model, devcode, none⟩

/-! ## Response dispatcher (`edinplus_NPU_instance.async_response_handler`) -/

/-- A `{device_uuid, type}` payload handed to `_dispatch_button_event`. -/
structure ButtonEvent where
  device_uuid : String
  event_type : String
  deriving DecidableEq, Repr

/-- Which entity's callback set was iterated (each registered callback on it
was invoked). -/
inductive CbTarget
  | sensor (address channel : Int)
  | light (address channel : Int)
  | switch (address channel : Int)
  deriving DecidableEq, Repr

/-- Warning-level log lines emitted by the dispatcher. -/
inductive Warn
  | gatrdyUnexpected
  | sensorWithoutEntity (address channel : Int)
  | moduleErr (addr : Int) (dev summary desc : String)
  | chanErr (addr : Int) (dev : String) (chan : Int) (summary desc : String)
  deriving DecidableEq, Repr

/-- The NPU-instance fields read or written by `async_response_handler`. -/
structure NPUState where
  serial_num : Option String
  tcp_version : Option String
  lights : List DimmerState
  switches : List RelayState
  binary_sensors : List SensorState
  last_message_received : Option ℚ
  last_keepalive_ack : Option ℚ
  deriving DecidableEq, Repr

/-- Result of one dispatcher call: updated state, button/input events
dispatched (in order), warnings logged, callback sets iterated. -/
structure HandlerOut where
  state : NPUState
  events : List ButtonEvent
  warns : List Warn
  callbacksFired : List CbTarget
  deriving DecidableEq, Repr

/-- `f"edinplus-{self.serial_num}-{address}-{channel}"`. -/
def mkDeviceUuid (serial : Option String) (address channel : Int) : String :=
  "edinplus-" ++ optStr serial ++ "-" ++ pyStr address ++ "-" ++ pyStr channel

/-- One iteration of the `for binary_sensor in self.binary_sensors` loop in
the `!INPSTATE` branch: accumulator carries the processed list,
`found_binary_sensor_channel`, `binary_sensor_discovery_in_progress`
(initially `False`, overwritten by every matching sensor) and the callback
sets iterated. -/
def inpstateSensorStep (address channel code : Int)
    (acc : List SensorState × Bool × Bool × List CbTarget) (bs : SensorState) :
    List SensorState × Bool × Bool × List CbTarget :=
  if bs.channel = channel ∧ bs.address = address then
    (acc.1 ++ [{ bs with is_on := some (decide (code > 0)) }], true,
     decide (bs.is_on = none), acc.2.2.2 ++ [.sensor address channel])
  else (acc.1 ++ [bs], acc.2.1, acc.2.2.1, acc.2.2.2)

/-- `!VERSION` branch (source lines 610-613). -/
def handleVersion (st : NPUState) (parts : List String) : Option HandlerOut := do
  let f1 ← parts[1]?
  let version := (pySplit f1 ';').headI
  pure ⟨{ st with tcp_version := some version }, [], [], []⟩

/-- `!INPSTATE` branch (source lines 614-650). -/
def handleInpstate (st : NPUState) (parts : List String) : Option HandlerOut := do
  let address ← parts[1]? >>= pyInt
  let channel ← parts[3]? >>= pyInt
  let f4 ← parts[4]?
  let code ← pyInt (pyTake f4 3)
  let newstate ← NEWSTATE_TO_BUTTONEVENT code
  let uuid := mkDeviceUuid st.serial_num address channel
  let res := st.binary_sensors.foldl (inpstateSensorStep address channel code)
    ([], false, false, [])
  pure ⟨{ st with binary_sensors := res.1 },
        if res.2.2.1 then [] else [⟨uuid, newstate⟩],
        if res.2.1 then [] else [.sensorWithoutEntity address channel],
        res.2.2.2⟩

/-- `!BTNSTATE` branch (source lines 653-676); the UUID channel component is
pinned to `1`. -/
def handleBtnstate (st : NPUState) (parts : List String) : Option HandlerOut := do
  let address ← parts[1]? >>= pyInt
  let channel ← parts[3]? >>= pyInt
  let f4 ← parts[4]?
  let code ← pyInt (pyTake f4 3)
  let bname ← NEWSTATE_TO_BUTTONEVENT code
  let newstate := "Button " ++ pyStr channel ++ " " ++ bname
  let uuid := "edinplus-" ++ optStr st.serial_num ++ "-" ++ pyStr address ++ "-1"
  pure ⟨st, [⟨uuid, newstate⟩], [], []⟩

/-- The `for light in self.lights` loop of the `!CHANFADE`/`!CHANLEVEL`
branch.  The `int(...)` conversions happen per iteration and short-circuit
with the `and` exactly as in the source, so an empty list raises nothing
and a channel mismatch never parses the address field. -/
def chanfadeLightsLoop (parts : List String) :
    List DimmerState → Option (List DimmerState × List CbTarget)
  | [] => some ([], [])
  | l :: rest => do
    let chan ← parts[3]? >>= pyInt
    if l.channel = chan then do
      let addr ← parts[1]? >>= pyInt
      if l.address = addr then do
        let lvl ← parts[4]? >>= pyInt
        let (ls, cbs) ← chanfadeLightsLoop parts rest
        pure ({ l with is_on := some (decide (lvl > 0)), brightness := some lvl } :: ls,
              .light addr chan :: cbs)
      else do
        let (ls, cbs) ← chanfadeLightsLoop parts rest
        pure (l :: ls, cbs)
    else do
      let (ls, cbs) ← chanfadeLightsLoop parts rest
      pure (l :: ls, cbs)

/-- The `for switch in self.switches` loop of the `!CHANFADE`/`!CHANLEVEL`
branch. -/
def chanfadeSwitchesLoop (parts : List String) :
    List RelayState → Option (List RelayState × List CbTarget)
  | [] => some ([], [])
  | s :: rest => do
    let chan ← parts[3]? >>= pyInt
    if s.channel = chan then do
      let addr ← parts[1]? >>= pyInt
      if s.address = addr then do
        let lvl ← parts[4]? >>= pyInt
        let (ss, cbs) ← chanfadeSwitchesLoop parts rest
        pure ({ s with is_on := some (decide (lvl > 0)) } :: ss, .switch addr chan :: cbs)
      else do
        let (ss, cbs) ← chanfadeSwitchesLoop parts rest
        pure (s :: ss, cbs)
    else do
      let (ss, cbs) ← chanfadeSwitchesLoop parts rest
      pure (s :: ss, cbs)

/-- `!CHANFADE` / `!CHANLEVEL` branch (source lines 678-695). -/
def handleChanfade (st : NPUState) (parts : List String) : Option HandlerOut := do
  let (lights, cbsL) ← chanfadeLightsLoop parts st.lights
  let (switches, cbsS) ← chanfadeSwitchesLoop parts st.switches
  pure ⟨{ st with lights := lights, switches := switches }, [], [], cbsL ++ cbsS⟩

/-- `!MODULEERR` branch (source lines 706-713); the table lookups inside the
warning f-string can raise `KeyError`, and status code 0 logs nothing. -/
def handleModuleerr (st : NPUState) (parts : List String) : Option HandlerOut := do
  let addr ← parts[1]? >>= pyInt
  let devc ← parts[2]? >>= pyInt
  let dev ← DEVCODE_TO_PRODNAME devc
  let f3 ← parts[3]?
  let statuscode ← pyInt ((pySplit f3 ';').headI)
  if statuscode ≠ 0 then do
    let summary ← STATUSCODE_TO_SUMMARY statuscode
    let desc ← STATUSCODE_TO_DESC statuscode
    pure ⟨st, [], [.moduleErr addr dev summary desc], []⟩
  else pure ⟨st, [], [], []⟩

/-- `!CHANERR` branch (source lines 714-721). -/
def handleChanerr (st : NPUState) (parts : List String) : Option HandlerOut := do
  let addr ← parts[1]? >>= pyInt
  let devc ← parts[2]? >>= pyInt
  let dev ← DEVCODE_TO_PRODNAME devc
  let chan ← parts[3]? >>= pyInt
  let f4 ← parts[4]?
  let statuscode ← pyInt ((pySplit f4 ';').headI)
  if statuscode ≠ 0 then do
    let summary ← STATUSCODE_TO_SUMMARY statuscode
    let desc ← STATUSCODE_TO_DESC statuscode
    pure ⟨st, [], [.chanErr addr dev chan summary desc], []⟩
  else pure ⟨st, [], [], []⟩

/-- `!SCNOFF` branch (source lines 724-725): debug log indexes field 1. -/
def handleScnoffAck (st : NPUState) (parts : List String) : Option HandlerOut := do
  let _f1 ← parts[1]?
  pure ⟨st, [], [], []⟩

/-- `!SCNRECALL` branch (source lines 726-727): debug log indexes field 1. -/
def handleScnrecallAck (st : NPUState) (parts : List String) : Option HandlerOut := do
  let _f1 ← parts[1]?
  pure ⟨st, [], [], []⟩

/-- `!SCNSTATE` branch (source lines 728-729): the debug f-string indexes
field 1 and computes `int(...)` of field 3. -/
def handleScnstate (st : NPUState) (parts : List String) : Option HandlerOut := do
  let _f1 ← parts[1]?
  let _lvl ← parts[3]? >>= pyInt
  pure ⟨st, [], [], []⟩

/-- `async_response_handler` (source lines 592-731).  `now` stands for
`datetime.now(timezone.utc)`; `none` models an exception escaping the
handler (at which point the only mutation already performed is
`last_message_received`). -/
def async_response_handler (st : NPUState) (now : ℚ) (response : String) :
    Option HandlerOut :=
  if response = "" then some ⟨st, [], [], []⟩
  else if strHasSub response "!OK;" then
    -- `self.last_message_received = now` then `self.last_keepalive_ack = now`
    some ⟨{ st with last_message_received := some now, last_keepalive_ack := some now },
          [], [], []⟩
  else
    -- `self.last_message_received = now`, then dispatch on
    -- `response_type = response.split(',')[0]`.  The `!GATRDY` test is a
    -- plain `if` in the source: it logs a warning and then still runs
    -- through the `!VERSION`-rooted elif chain (reaching its `else`).
    (if (pySplit response ',').headI = "!VERSION" then
      handleVersion { st with last_message_received := some now } (pySplit response ',')
    else if (pySplit response ',').headI = "!INPSTATE" then
      handleInpstate { st with last_message_received := some now } (pySplit response ',')
    else if (pySplit response ',').headI = "!BTNSTATE" then
      handleBtnstate { st with last_message_received := some now } (pySplit response ',')
    else if (pySplit response ',').headI = "!CHANFADE" ∨
        (pySplit response ',').headI = "!CHANLEVEL" then
      handleChanfade { st with last_message_received := some now } (pySplit response ',')
    else if (pySplit response ',').headI = "!MODULEERR" then
      handleModuleerr { st with last_message_received := some now } (pySplit response ',')
    else if (pySplit response ',').headI = "!CHANERR" then
      handleChanerr { st with last_message_received := some now } (pySplit response ',')
    else if (pySplit response ',').headI = "!OK" then
      some ⟨{ st with last_message_received := some now }, [], [], []⟩
    else if (pySplit response ',').headI = "!SCNOFF" then
      handleScnoffAck { st with last_message_received := some now } (pySplit response ',')
    else if (pySplit response ',').headI = "!SCNRECALL" then
      handleScnrecallAck { st with last_message_received := some now } (pySplit response ',')
    else if (pySplit response ',').headI = "!SCNSTATE" then
      handleScnstate { st with last_message_received := some now } (pySplit response ',')
    else
      some ⟨{ st with last_message_received := some now }, [], [], []⟩).map
      fun out =>
        { out with warns :=
            (if (pySplit response ',').headI = "!GATRDY" then [Warn.gatrdyUnexpected]
             else []) ++ out.warns }

/-- `_dispatch_button_event` fan-out: the payload is delivered to every
registered subscriber (a snapshot `list(...)` of the callback set). -/
def dispatch_button_event (subscribers : List Nat) (payload : ButtonEvent) :
    List (Nat × ButtonEvent) :=
  subscribers.map fun cb => (cb, payload)

/-! ## Background loops (`_monitor_loop`, `_systeminfo_loop`)

Both loops wrap their *entire* `while` loop in one
`try ... except asyncio.CancelledError ... except Exception` block.  Read
errors and EOF are handled inside the loop body (drop the connection and
`continue`); any other exception — in particular one escaping
`async_response_handler` or `async_edinplus_check_systeminfo` — is caught
by the outer `except Exception`, logged ("... loop crashed"), and ends the
loop.  The runs below are scripted by a list of per-iteration inputs; the
list ending models the stop event. -/

inductive ReadResult
  /-- `tcp_receive_message` raising `asyncio.IncompleteReadError`/`OSError` -/
  | readErr
  /-- a decoded line; `""` is the EOF sentinel -/
  | frame (s : String)
  deriving DecidableEq, Repr

/-- `_monitor_loop` (source lines 733-788): returns the final NPU state, how
many frames were fully dispatched, and whether the loop ended via the outer
`except Exception` handler (crashed = logged and terminated). -/
def monitorLoopRun (now : ℚ) (st : NPUState) : List ReadResult → NPUState × Nat × Bool
  | [] => (st, 0, false)
  | .readErr :: rs => monitorLoopRun now st rs
  | .frame f :: rs =>
    if f = "" then monitorLoopRun now st rs
    else
      match async_response_handler st now f with
      | some out =>
        let r := monitorLoopRun now out.state rs
        (r.1, r.2.1 + 1, r.2.2)
      | none => ({ st with last_message_received := some now }, 0, true)

inductive PollOutcome
  /-- `if not self.online: continue` -/
  | skipOffline
  /-- `async_edinplus_check_systeminfo` completing, fed the extracted
  fingerprint (`none` = payload falsy or regex miss) -/
  | poll (extracted : Option (String × String × String))
  /-- the poll body raising (e.g. an `aiohttp` error from
  `async_retrieve_from_npu`: `async_edinplus_check_systeminfo` has no
  handler of its own — its `try` block is commented out) -/
  | raiseErr
  deriving DecidableEq, Repr

/-- `_systeminfo_loop` (source lines 564-589): final fingerprint state,
number of completed polls, and whether the loop ended via the outer
`except Exception` handler. -/
def systeminfoLoopRun (st : SysState) : List PollOutcome → SysState × Nat × Bool
  | [] => (st, 0, false)
  | .skipOffline :: rs => systeminfoLoopRun st rs
  | .poll e :: rs =>
    let st' := (async_edinplus_check_systeminfo st e).2
    let r := systeminfoLoopRun st' rs
    (r.1, r.2.1 + 1, r.2.2)
  | .raiseErr :: _ => (st, 0, true)

/-! ## Dimmer commands (`edinplus_dimmer_channel_instance`)

Each command builds its outbound message (evaluating the proxy-dict
lookups), awaits `tcp_send_message`, and only then assigns `_is_on` and
`_brightness` — so if message building raises (`KeyError` on the fadetime
dict) or the send fails, the entity state is unchanged.  `sendOk = false`
models the send raising. -/

/-- Python dict membership/lookup on an insertion-ordered association list
(later insertions overwrite). -/
def pyDictGet (d : List (String × Int)) (k : String) : Option Int :=
  (d.reverse.find? fun p => p.1 = k).map fun p => p.2

/-- The hub fields consulted by the dimmer commands. -/
structure HubProxy where
  use_chan_to_scn_proxy : Bool
  chan_to_scn_proxy : List (String × Int)
  chan_to_scn_proxy_fadetime : List (String × Int)
  deriving DecidableEq, Repr

/-- `f"{str(addr).zfill(3)}-{str(chan).zfill(3)}"`. -/
def DimmerState.chanToScnId (d : DimmerState) : String :=
  pyZfill 3 (pyStr d.address) ++ "-" ++ pyZfill 3 (pyStr d.channel)

/-- `edinplus_dimmer_channel_instance.set_brightness` (source lines
1127-1138): returns the updated entity and the message written. -/
def DimmerState.set_brightness (hub : HubProxy) (d : DimmerState)
    (intensity : Int) (sendOk : Bool) : Option (DimmerState × String) :=
  if hub.use_chan_to_scn_proxy ∧ (pyDictGet hub.chan_to_scn_proxy d.chanToScnId).isSome then do
    let scn ← pyDictGet hub.chan_to_scn_proxy d.chanToScnId
    let ft ← pyDictGet hub.chan_to_scn_proxy_fadetime d.chanToScnId
    if sendOk then
      pure ({ d with is_on := some (decide (intensity > 0)), brightness := some intensity },
            "$SCNRECALLX," ++ pyStr scn ++ "," ++ pyStr intensity ++ "," ++ pyStr ft ++ ";")
    else none
  else
    if sendOk then
      pure ({ d with is_on := some (decide (intensity > 0)), brightness := some intensity },
            "$ChanFade," ++ pyStr d.address ++ "," ++ pyStr d.devcode ++ ","
              ++ pyStr d.channel ++ "," ++ pyStr intensity ++ ",0;")
    else none

/-- `edinplus_dimmer_channel_instance.turn_on` (source lines 1140-1150). -/
def DimmerState.turn_on (hub : HubProxy) (d : DimmerState) (sendOk : Bool) :
    Option (DimmerState × String) :=
  if hub.use_chan_to_scn_proxy ∧ (pyDictGet hub.chan_to_scn_proxy d.chanToScnId).isSome then do
    let scn ← pyDictGet hub.chan_to_scn_proxy d.chanToScnId
    if sendOk then
      pure ({ d with is_on := some true, brightness := some 255 },
            "$SCNRECALL," ++ pyStr scn ++ ";")
    else none
  else
    if sendOk then
      pure ({ d with is_on := some true, brightness := some 255 },
            "$ChanFade," ++ pyStr d.address ++ "," ++ pyStr d.devcode ++ ","
              ++ pyStr d.channel ++ ",255,0;")
    else none

/-- `edinplus_dimmer_channel_instance.turn_off` (source lines 1152-1162). -/
def DimmerState.turn_off (hub : HubProxy) (d : DimmerState) (sendOk : Bool) :
    Option (DimmerState × String) :=
  if hub.use_chan_to_scn_proxy ∧ (pyDictGet hub.chan_to_scn_proxy d.chanToScnId).isSome then do
    let scn ← pyDictGet hub.chan_to_scn_proxy d.chanToScnId
    if sendOk then
      pure ({ d with is_on := some false, brightness := some 0 },
            "$SCNOFF," ++ pyStr scn ++ ";")
    else none
  else
    if sendOk then
      pure ({ d with is_on := some false, brightness := some 0 },
            "$ChanFade," ++ pyStr d.address ++ "," ++ pyStr d.devcode ++ ","
              ++ pyStr d.channel ++ ",0,0;")
    else none

/-! ## Channel discovery (`edinplus_NPU_instance.async_edinplus_discover_channels`)

Embedding of the `AREA`-dict and output-`CHAN` sections (source lines
799-838).  The `INPSTATE` input-entity section (lines 841-901) feeds no
claim and is not modelled. -/

/-- Python dict lookup on an insertion-ordered `int → str` association list. -/
def pyDictGetIS (d : List (Int × String)) (k : Int) : Option String :=
  (d.reverse.find? fun p => p.1 = k).map fun p => p.2

/-- The `for area in areas_csv` loop: `areas[int(split[1])] = split[2]`. -/
def buildAreasDict (npuData : List String) : Option (List (Int × String)) :=
  (npuData.filter fun l => pyStartswith l "AREA").foldlM
    (fun d line => do
      let f1 ← (pySplit line ',')[1]?
      let k ← pyInt f1
      let v ← (pySplit line ',')[2]?
      pure (d ++ [(k, v)]))
    []

structure DiscoveredOutputs where
  dimmers : List DimmerState
  relays : List RelayState
  pulses : List PulseState
  deriving DecidableEq, Repr

/-- The body of the `for channel in channels_csv` loop for one `CHAN` line:
field parses, `areas[...]`/`DEVCODE_TO_PRODNAME[...]` lookups (`KeyError`
→ `none`), empty-name default, then the device-code branch: 12, 15 and 14
append a dimmer named `f"{area} {name}"`; 16 appends a relay plus a pulse
button named `f"{area} {name} pulse toggle"`; other codes are logged and
skipped. -/
def discoverChanLine (areas : List (Int × String)) (acc : DiscoveredOutputs)
    (line : String) : Option DiscoveredOutputs := do
  let parts := pySplit line ','
  let address ← parts[1]? >>= pyInt
  let channel ← parts[3]? >>= pyInt
  let areaNum ← parts[4]? >>= pyInt
  let area ← pyDictGetIS areas areaNum
  let devcode ← parts[2]? >>= pyInt
  let model ← DEVCODE_TO_PRODNAME devcode
  let name0 ← parts[5]?
  let name :=
    if name0 = "" then
      "Unnamed " ++ model ++ " addr " ++ pyStr address ++ " chan " ++ pyStr channel
    else name0
  if devcode = 12 ∨ devcode = 15 ∨ devcode = 14 then
    pure { acc with dimmers := acc.dimmers ++
      [DimmerState.init address channel (area ++ " " ++ name) area model devcode] }
  else if devcode = 16 then
    pure { acc with
      relays := acc.relays ++
        [RelayState.init address channel (area ++ " " ++ name) area model devcode],
      pulses := acc.pulses ++
        [PulseState.init address channel (area ++ " " ++ name ++ " pulse toggle")
          area model devcode] }
  else
    pure acc

/-- `async_edinplus_discover_channels`, output-channel sections (lines
799-838), fed the `info?what=names` payload. -/
def discover_channels_outputs (namesPayload : String) : Option DiscoveredOutputs := do
  let npuData := pySplitlines namesPayload
  let areas ← buildAreasDict npuData
  (npuData.filter fun l => pyStartswith l "CHAN").foldlM
    (discoverChanLine areas) ⟨[], [], []⟩

/-! ## Scenes (`scenes.py::edinplus_scene_instance`,
`edinplus_NPU_instance.async_edinplus_discover_scenes`)

`edinplus_scene_instance.__init__` evaluates `npu.serial` and
`activate` calls `self.hub.tcp_send_message(...)`.  Neither name is bound
on `edinplus_NPU_instance` (the class binds `serial_num`, and
`tcp_send_message` is a module-level function of `edinplus.py`, not an
attribute), so both accesses raise `AttributeError`, modelled by looking
the names up in the transcribed attribute set of the class. -/

/-- Every attribute assigned by `edinplus_NPU_instance.__init__` plus every
method bound on the class body (transcribed from `edinplus.py`). -/
def edinplus_NPU_instance_attrs : List String :=
  ["_config", "_hostname", "_name", "_tcpport", "_id", "_endpoint",
   "lights", "switches", "buttons", "binary_sensors", "scenes",
   "manufacturer", "model", "tcp_version", "serial_num", "edit_stamp",
   "adjust_stamp", "info_what_names", "info_what_levels", "reader",
   "writer", "_monitor_task", "_keepalive_task", "_systeminfo_task",
   "_stop_event", "_use_chan_to_scn_proxy", "chan_to_scn_proxy",
   "chan_to_scn_proxy_fadetime", "areas", "online", "comms_retry_attempts",
   "comms_max_retry_attempts", "_reconnect_delay", "last_message_received",
   "last_keepalive_ack", "_button_event_callbacks",
   "register_button_event_callback", "remove_button_event_callback",
   "_dispatch_button_event", "async_test_connection", "start", "stop",
   "discover", "async_edinplus_check_systeminfo", "_ensure_connected",
   "_keepalive_loop", "_systeminfo_loop", "async_response_handler",
   "_monitor_loop", "async_edinplus_discover_channels",
   "async_edinplus_discover_areas", "async_edinplus_discover_scenes",
   "async_edinplus_map_chans_to_scns"]

/-- Python `hasattr`: whether `obj.name` resolves. -/
def pyHasAttr (attrs : List String) (name : String) : Bool := attrs.contains name

/-- A constructed `edinplus_scene_instance` (the `scene_num` identity
string would interpolate the missing `npu.serial` attribute, so
construction only succeeds if that attribute resolves). -/
structure SceneInstState where
  scene_number : Int
  name : String
  area : Int
  deriving DecidableEq, Repr

/-- `edinplus_scene_instance.__init__(scene_num, scene_name, scene_area, npu)`
(scenes.py lines 59-66); `none` models the `AttributeError` from
`npu.serial`. -/
def scene_instance_init (sceneNum : Int) (sceneName : String) (sceneArea : Int) :
    Option SceneInstState :=
  if pyHasAttr edinplus_NPU_instance_attrs "serial" then
    some ⟨sceneNum, sceneName, sceneArea⟩
  else none

/-- The command text `activate` formats: `f"$SCNRECALL,{self._scene_number};"`. -/
def scnrecallCommand (sceneNumber : Int) : String :=
  "$SCNRECALL," ++ pyStr sceneNumber ++ ";"

/-- `edinplus_scene_instance.activate` (scenes.py lines 68-73): the message
written to the transport, or `none` for the `AttributeError` raised by
`self.hub.tcp_send_message` before anything is written. -/
def scene_activate (s : SceneInstState) : Option String :=
  if pyHasAttr edinplus_NPU_instance_attrs "tcp_send_message" then
    some (scnrecallCommand s.scene_number)
  else none

/-- `async_edinplus_discover_scenes` (source lines 915-934), fed the
`re.findall` matches `(scene_num, area_num, scene_name)` from the levels
payload: one `edinplus_scene_instance` is constructed per match. -/
def async_edinplus_discover_scenes (ms : List (Int × Int × String)) :
    Option (List SceneInstState) :=
  ms.foldlM
    (fun acc m => (scene_instance_init m.1 m.2.2 m.2.1).map fun s => acc ++ [s])
    []

/-- The dimmer brightness/on-off consistency invariant: brightness is
either still unset, or set together with the on/off flag it implies. -/
def dimmerInv (d : DimmerState) : Prop :=
  d.brightness = none ∨ ∃ b, d.brightness = some b ∧ d.is_on = some (decide (b > 0))

/-! # Theorems -/

/-! ## C2 — reconnect backoff -/

/-- Head of the wait list for a streak of pure connect failures. -/
lemma ensureConnectedRun_connectFail_headWait (cfg : BackoffConfig) (d : ℚ)
    (os : List AttemptOutcome) (h : ∀ o ∈ os, o = AttemptOutcome.connectFail) :
    (ensureConnectedRun cfg d os).waits.head? = if os.isEmpty then none else some d := by
  cases os with
  | nil => rfl
  | cons o os' =>
    have ho : o = AttemptOutcome.connectFail := h o (List.mem_cons_self o os')
    subst ho
    rfl

/-- On any run that returns connected, the stored delay ends at the
configured minimum. -/
lemma ensureConnectedRun_connected_delay (cfg : BackoffConfig) :
    ∀ (os : List AttemptOutcome) (d : ℚ),
      (ensureConnectedRun cfg d os).connected = true →
      (ensureConnectedRun cfg d os).delay = cfg.reconnect_delay := by
  intro os
  induction os with
  | nil => intro d h; exact absurd h (by simp [ensureConnectedRun])
  | cons o os' ih =>
    intro d h
    cases o with
    | connectFail =>
      simp only [ensureConnectedRun] at h ⊢
      exact ih _ h
    | handshakeEmpty =>
      simp only [ensureConnectedRun] at h ⊢
      exact ih _ h
    | handshakeWrong =>
      simp only [ensureConnectedRun] at h ⊢
      exact ih _ h
    | handshakeOk => rfl

/-- For a streak of pure connect failures the waits double (capped), are
non-decreasing, and stay at or below the configured maximum. -/
lemma ensureConnectedRun_connectFail_waits (cfg : BackoffConfig)
    (hmin : 0 ≤ cfg.max_reconnect_delay) :
    ∀ (os : List AttemptOutcome) (d : ℚ), 0 ≤ d → d ≤ cfg.max_reconnect_delay →
      (∀ o ∈ os, o = AttemptOutcome.connectFail) →
      List.Chain' (fun a b => b = min (a * 2) cfg.max_reconnect_delay)
          (ensureConnectedRun cfg d os).waits ∧
      List.Chain' (· ≤ ·) (ensureConnectedRun cfg d os).waits ∧
      ∀ w ∈ (ensureConnectedRun cfg d os).waits, w ≤ cfg.max_reconnect_delay := by
  intro os
  induction os with
  | nil => intro d _ _ _; refine ⟨List.chain'_nil, List.chain'_nil, by simp [ensureConnectedRun]⟩
  | cons o os' ih =>
    intro d hd0 hdmax hall
    have ho : o = AttemptOutcome.connectFail := hall o (List.mem_cons_self o os')
    subst ho
    have hall' : ∀ o ∈ os', o = AttemptOutcome.connectFail :=
      fun o ho => hall o (List.mem_cons_of_mem _ ho)
    set d' : ℚ := min (d * 2) cfg.max_reconnect_delay with hd'
    have hd'0 : 0 ≤ d' := le_min (by linarith) hmin
    have hd'max : d' ≤ cfg.max_reconnect_delay := min_le_right _ _
    have hdd' : d ≤ d' := le_min (by linarith) hdmax
    obtain ⟨ih1, ih2, ih3⟩ := ih d' hd'0 hd'max hall'
    have hw : (ensureConnectedRun cfg d (AttemptOutcome.connectFail :: os')).waits =
        d :: (ensureConnectedRun cfg d' os').waits := rfl
    have hhead := ensureConnectedRun_connectFail_headWait cfg d' os' hall'
    refine ⟨?_, ?_, ?_⟩
    · rw [hw]
      refine List.chain'_cons'.2 ⟨?_, ih1⟩
      intro y hy
      rw [hhead] at hy
      by_cases he : os'.isEmpty
      · rw [if_pos he] at hy; simp at hy
      · rw [if_neg he] at hy
        simp only [Option.mem_some_iff] at hy
        subst hy
        exact hd'
    · rw [hw]
      refine List.chain'_cons'.2 ⟨?_, ih2⟩
      intro y hy
      rw [hhead] at hy
      by_cases he : os'.isEmpty
      · rw [if_pos he] at hy; simp at hy
      · rw [if_neg he] at hy
        simp only [Option.mem_some_iff] at hy
        subst hy
        exact hdd'
    · rw [hw]
      intro w hw'
      rcases List.mem_cons.1 hw' with h | h
      · exact h ▸ hdmax
      · exact ih3 w h

/-- C2 counterexample: starting from the configured minimum delay 2 (max
60), the failure streak [connect failure, connect failure, TCP connect
succeeding but empty handshake read] waits 2s, 4s, then 2s again — the
`_reconnect_delay` reset happens on the successful `open_connection`
*before* the handshake, so the waits of this consecutive-failure streak are
not monotonically non-decreasing and the third wait is not the double of
the second. -/
theorem backoff_reset_before_handshake_counterexample :
    (ensureConnectedRun ⟨2, 60⟩ 2
        [AttemptOutcome.connectFail, AttemptOutcome.connectFail,
         AttemptOutcome.handshakeEmpty]).waits = [2, 4, 2] ∧
    ¬ List.Chain' (· ≤ ·)
        (ensureConnectedRun ⟨2, 60⟩ 2
          [AttemptOutcome.connectFail, AttemptOutcome.connectFail,
           AttemptOutcome.handshakeEmpty]).waits := by
  have hw : (ensureConnectedRun ⟨2, 60⟩ 2
      [AttemptOutcome.connectFail, AttemptOutcome.connectFail,
       AttemptOutcome.handshakeEmpty]).waits = [2, 4, 2] := by
    simp only [ensureConnectedRun]
    norm_num
  refine ⟨hw, ?_⟩
  rw [hw]
  intro h
  have h2 := (List.chain'_cons.1 (List.chain'_cons.1 h).2).1
  norm_num at h2

/-- C2 amended: the stored delay is reset to the configured minimum on
every successful TCP `open_connection` (even when the subsequent handshake
fails).  Consequently (a) along a streak consisting solely of failed TCP
connection attempts, the waits double with cap at the maximum, are
monotonically non-decreasing and never exceed the configured maximum, and
(b) whenever `_ensure_connected` returns with a session established, the
stored delay equals the configured minimum. -/
theorem backoff_amended (cfg : BackoffConfig) (d : ℚ) (os : List AttemptOutcome)
    (hmax : 0 ≤ cfg.max_reconnect_delay) (hd0 : 0 ≤ d)
    (hdmax : d ≤ cfg.max_reconnect_delay) :
    ((∀ o ∈ os, o = AttemptOutcome.connectFail) →
      List.Chain' (fun a b => b = min (a * 2) cfg.max_reconnect_delay)
          (ensureConnectedRun cfg d os).waits ∧
      List.Chain' (· ≤ ·) (ensureConnectedRun cfg d os).waits ∧
      ∀ w ∈ (ensureConnectedRun cfg d os).waits, w ≤ cfg.max_reconnect_delay) ∧
    ((ensureConnectedRun cfg d os).connected = true →
      (ensureConnectedRun cfg d os).delay = cfg.reconnect_delay) :=
  ⟨fun hall => ensureConnectedRun_connectFail_waits cfg hmax os d hd0 hdmax hall,
   ensureConnectedRun_connected_delay cfg os d⟩

/-- C2 amended witness at concrete inputs (two connect failures from the
default configuration, then a successful handshake run). -/
theorem backoff_amended_witness :
    List.Chain' (· ≤ ·)
      (ensureConnectedRun ⟨2, 60⟩ 2
        [AttemptOutcome.connectFail, AttemptOutcome.connectFail]).waits ∧
    (ensureConnectedRun ⟨2, 60⟩ 4 [AttemptOutcome.handshakeOk]).delay = 2 := by
  refine ⟨((backoff_amended ⟨2, 60⟩ 2
      [AttemptOutcome.connectFail, AttemptOutcome.connectFail]
      (by norm_num) (by norm_num) (by norm_num)).1 ?_).2.1, ?_⟩
  · intro o ho
    simp only [List.mem_cons, List.not_mem_nil, or_false] at ho
    rcases ho with h | h <;> exact h
  · exact (backoff_amended ⟨2, 60⟩ 4 [AttemptOutcome.handshakeOk]
      (by norm_num) (by norm_num) (by norm_num)).2 rfl

/-! ## C4 — system-info fingerprint comparison -/

/-- C4 counterexample: with stored fingerprint (serial "100", edit "1-1",
adjust "2-2"), a poll extracting ("999", "1-1", "2-2") — a tuple that
differs from the stored one in its serial component — triggers no
rediscovery, because the source compares only the edit and adjust stamps. -/
theorem systeminfo_serial_only_change_counterexample :
    (async_edinplus_check_systeminfo ⟨some "100", some "1-1", some "2-2"⟩
        (some ("999", "1-1", "2-2"))).1 = false
    ∧ some "999" ≠ (⟨some "100", some "1-1", some "2-2"⟩ : SysState).serial_num := by
  constructor
  · rfl
  · simp

/-- C4 amended: on each system-info poll that extracts a fingerprint,
rediscovery is triggered if and only if the edit stamp or the adjust stamp
differs from the stored values; the serial number is not part of the
comparison, and when both stamps are unchanged the poll is a no-op on the
stored state. -/
theorem systeminfo_rediscovery_iff_stamps_differ (st : SysState)
    (serial edit adjust : String) :
    ((async_edinplus_check_systeminfo st (some (serial, edit, adjust))).1 = true ↔
      (st.edit_stamp ≠ some edit ∨ st.adjust_stamp ≠ some adjust)) ∧
    (st.edit_stamp = some edit → st.adjust_stamp = some adjust →
      async_edinplus_check_systeminfo st (some (serial, edit, adjust)) = (false, st)) := by
  constructor
  · by_cases h : st.edit_stamp ≠ some edit ∨ st.adjust_stamp ≠ some adjust
    · simp [async_edinplus_check_systeminfo, h]
    · simp only [async_edinplus_check_systeminfo, if_neg h]
      simpa using h
  · intro h1 h2
    have h : ¬(st.edit_stamp ≠ some edit ∨ st.adjust_stamp ≠ some adjust) := by
      simp [h1, h2]
    simp [async_edinplus_check_systeminfo, if_neg h]

/-- C4 amended witness: an unchanged stamp pair is a no-op even when the
serial changed. -/
theorem systeminfo_rediscovery_iff_stamps_differ_witness :
    async_edinplus_check_systeminfo ⟨some "100", some "1-1", some "2-2"⟩
        (some ("999", "1-1", "2-2")) = (false, ⟨some "100", some "1-1", some "2-2"⟩) :=
  (systeminfo_rediscovery_iff_stamps_differ ⟨some "100", some "1-1", some "2-2"⟩
    "999" "1-1" "2-2").2 rfl rfl

/-! ## C7 — discovery round-trip -/

/-- C7: feeding `CHAN,12,12,3,1,Kitchen Downlights` and `AREA,1,Kitchen`
through channel discovery yields exactly one dimmer, with the composed name
"Kitchen Kitchen Downlights" (area name before channel name), address 12,
channel 3 and device-code 12 (and no relays or pulse buttons). -/
theorem discovery_roundtrip_kitchen :
    discover_channels_outputs "CHAN,12,12,3,1,Kitchen Downlights\nAREA,1,Kitchen" =
      some ⟨[⟨12, 3, "Kitchen Kitchen Downlights", "Kitchen",
             "eDIN 2A 8 channel leading edge dimmer module", 12, none, none⟩],
            [], []⟩ := by
  rfl

/-! ## C8 — scene discovery and activation -/

/-- C8 (code bug): the command text `activate` formats is exactly
`$SCNRECALL,<scene number>;` as the claim states, but
`edinplus_scene_instance.__init__` reads `npu.serial` and `activate` calls
`self.hub.tcp_send_message`, neither of which is an attribute of
`edinplus_NPU_instance` (the class binds `serial_num`; `tcp_send_message`
is a module-level function).  So building the per-SCENE-block entities
raises `AttributeError`, and `activate` raises before writing anything. -/
theorem scene_attribute_error_bug :
    async_edinplus_discover_scenes [(1, 1, "Evening")] = none
    ∧ scene_activate ⟨1, "Evening", 1⟩ = none
    ∧ pyHasAttr edinplus_NPU_instance_attrs "serial" = false
    ∧ pyHasAttr edinplus_NPU_instance_attrs "serial_num" = true
    ∧ pyHasAttr edinplus_NPU_instance_attrs "tcp_send_message" = false
    ∧ scnrecallCommand 1 = "$SCNRECALL,1;" := by
  refine ⟨rfl, rfl, by decide, by decide, by decide, rfl⟩

/-! ## C9 — `!OK;` frames -/

/-- C9: any non-empty frame whose text contains the substring `!OK;`
(anywhere) makes the dispatcher record the current time as both the last
message timestamp and the last keep-alive ack timestamp and return at once:
no entity state changes, no callbacks fire, no warnings and no button/input
events are produced. -/
theorem ok_frame_only_updates_timestamps (st : NPUState) (now : ℚ) (response : String)
    (hne : response ≠ "") (hok : strHasSub response "!OK;" = true) :
    async_response_handler st now response =
      some ⟨{ st with last_message_received := some now, last_keepalive_ack := some now },
            [], [], []⟩ := by
  unfold async_response_handler
  rw [if_neg hne]
  simp only [hok, if_true]

/-- C9 witness: the plain ack frame, and a frame merely containing `!OK;`. -/
theorem ok_frame_only_updates_timestamps_witness :
    async_response_handler ⟨none, none, [], [], [], none, none⟩ 0 "!OK;\r\n" =
      some ⟨⟨none, none, [], [], [], some 0, some 0⟩, [], [], []⟩ ∧
    async_response_handler ⟨some "9", none, [], [], [], none, none⟩ 1 "!VERSION,!OK;2\n" =
      some ⟨⟨some "9", none, [], [], [], some 1, some 1⟩, [], [], []⟩ :=
  ⟨ok_frame_only_updates_timestamps _ 0 "!OK;\r\n" (by decide) (by decide),
   ok_frame_only_updates_timestamps _ 1 "!VERSION,!OK;2\n" (by decide) (by decide)⟩

/-! ## C1 — background-loop failure handling -/

/-- C1 counterexample: an `!INPSTATE` frame with state code 3 (a code
outside `NEWSTATE_TO_BUTTONEVENT`) makes `async_response_handler` raise
`KeyError`; the monitor loop's single `try/except Exception` wraps the
whole `while`, so the error is caught and logged but the loop terminates:
the following well-formed frame is never processed (0 frames handled,
crashed = true), although processing that frame alone would have succeeded
(1 frame handled, no crash). -/
theorem monitor_loop_terminates_on_frame_error_counterexample :
    monitorLoopRun 0 ⟨some "0123", none, [], [], [], none, none⟩
        [ReadResult.frame "!INPSTATE,12,9,3,003;\n",
         ReadResult.frame "!INPSTATE,12,9,3,001;\n"] =
      (⟨some "0123", none, [], [], [], some 0, none⟩, 0, true)
    ∧ (monitorLoopRun 0 ⟨some "0123", none, [], [], [], none, none⟩
        [ReadResult.frame "!INPSTATE,12,9,3,001;\n"]).2 = (1, false) := by
  exact ⟨rfl, rfl⟩

/-- C1 amended: in the monitor loop, transport read errors and EOF reads
are handled inside the loop body and the loop continues; but an exception
escaping per-frame dispatch is caught (and logged) only by the loop-level
`except Exception` handler, which terminates the loop, leaving the
remaining frames unprocessed — and likewise a poll iteration of the
system-info loop that raises terminates that loop.  No failure propagates
out of either loop task. -/
theorem background_loop_failure_amended (now : ℚ) (st : NPUState) (f : String)
    (rs : List ReadResult) (sys : SysState) (ps : List PollOutcome)
    (hne : f ≠ "") (hf : async_response_handler st now f = none) :
    monitorLoopRun now st (ReadResult.frame f :: rs) =
      ({ st with last_message_received := some now }, 0, true)
    ∧ monitorLoopRun now st (ReadResult.readErr :: rs) = monitorLoopRun now st rs
    ∧ systeminfoLoopRun sys (PollOutcome.raiseErr :: ps) = (sys, 0, true) := by
  refine ⟨?_, rfl, rfl⟩
  unfold monitorLoopRun
  rw [if_neg hne, hf]

/-- C1 amended witness at the concrete crashing frame. -/
theorem background_loop_failure_amended_witness :
    monitorLoopRun 0 ⟨some "0123", none, [], [], [], none, none⟩
        [ReadResult.frame "!INPSTATE,12,9,3,003;\n"] =
      (⟨some "0123", none, [], [], [], some 0, none⟩, 0, true)
    ∧ monitorLoopRun 0 ⟨some "0123", none, [], [], [], none, none⟩
        [ReadResult.readErr] =
      monitorLoopRun 0 ⟨some "0123", none, [], [], [], none, none⟩ []
    ∧ systeminfoLoopRun ⟨none, none, none⟩ [PollOutcome.raiseErr] =
      (⟨none, none, none⟩, 0, true) :=
  background_loop_failure_amended 0 ⟨some "0123", none, [], [], [], none, none⟩
    "!INPSTATE,12,9,3,003;\n" [] ⟨none, none, none⟩ [] (by decide) (by rfl)

/-! ## C3 — keep-alive tick -/

/-- C3: on every keep-alive tick that sends a probe at `sentAt` and then
waits out the timeout, the consecutive-failure counter is reset to zero
when the recorded ack timestamp is at or after `sentAt`, or lies within
`timeout + 1s grace` of the current time (and then no increment happens);
otherwise — including when no ack was ever recorded, and when the probe
send itself raises an I/O error — the counter is incremented exactly once
for that tick (and the stored counter becomes the incremented value, or
zero when that increment reaches the escalation maximum, which force-drops
the connection). -/
theorem keepalive_tick_reset_or_single_increment (cfg : KeepaliveConfig)
    (st : KeepaliveState) (sendOk : Bool) (sentAt now : ℚ) :
    ((sendOk = true ∧ ∃ ack, st.last_keepalive_ack = some ack ∧
        (ack ≥ sentAt ∨ now - ack ≤ cfg.keep_alive_timeout + 1)) →
      (keepaliveTick cfg st sendOk sentAt now).increments = 0 ∧
      (keepaliveTick cfg st sendOk sentAt now).state.comms_retry_attempts = 0) ∧
    (¬ (sendOk = true ∧ ∃ ack, st.last_keepalive_ack = some ack ∧
        (ack ≥ sentAt ∨ now - ack ≤ cfg.keep_alive_timeout + 1)) →
      (keepaliveTick cfg st sendOk sentAt now).increments = 1 ∧
      (keepaliveTick cfg st sendOk sentAt now).state.comms_retry_attempts =
        (if st.comms_retry_attempts + 1 ≥ cfg.comms_max_retry_attempts then 0
         else st.comms_retry_attempts + 1)) := by
  constructor
  · rintro ⟨hs, ack, hack, hcond⟩
    subst hs
    by_cases h1 : ack ≥ sentAt
    · simp only [keepaliveTick, keepaliveEscalate, hack, if_pos h1]
      split_ifs <;> simp_all
    · have h2 : now - ack ≤ cfg.keep_alive_timeout + 1 := hcond.resolve_left h1
      simp only [keepaliveTick, keepaliveEscalate, hack, if_neg h1, if_pos h2]
      split_ifs <;> simp_all
  · intro hS
    cases sendOk with
    | false =>
      simp only [keepaliveTick, keepaliveEscalate]
      split_ifs <;> simp_all
    | true =>
      cases hack : st.last_keepalive_ack with
      | none =>
        simp only [keepaliveTick, keepaliveEscalate, hack]
        split_ifs <;> simp_all
      | some ack =>
        have hcond : ¬ (ack ≥ sentAt ∨ now - ack ≤ cfg.keep_alive_timeout + 1) := by
          intro hc
          exact hS ⟨rfl, ack, hack, hc⟩
        push_neg at hcond
        simp only [keepaliveTick, keepaliveEscalate, hack,
          if_neg (not_le.2 hcond.1), if_neg (not_le.2 hcond.2)]
        split_ifs <;> simp_all

/-- C3 witness: a tick with a fresh ack resets the counter; a tick with no
recorded ack increments it exactly once. -/
theorem keepalive_tick_reset_or_single_increment_witness :
    ((keepaliveTick ⟨2, 5⟩ ⟨3, some 10, true⟩ true 9 12).increments = 0 ∧
     (keepaliveTick ⟨2, 5⟩ ⟨3, some 10, true⟩ true 9 12).state.comms_retry_attempts = 0) ∧
    ((keepaliveTick ⟨2, 5⟩ ⟨0, none, true⟩ true 9 12).increments = 1 ∧
     (keepaliveTick ⟨2, 5⟩ ⟨0, none, true⟩ true 9 12).state.comms_retry_attempts =
       (if 0 + 1 ≥ 5 then 0 else 0 + 1)) :=
  ⟨(keepalive_tick_reset_or_single_increment ⟨2, 5⟩ ⟨3, some 10, true⟩ true 9 12).1
      ⟨rfl, 10, rfl, Or.inl (by norm_num)⟩,
   (keepalive_tick_reset_or_single_increment ⟨2, 5⟩ ⟨0, none, true⟩ true 9 12).2
      (by rintro ⟨-, ack, hack, -⟩; exact Option.noConfusion hack)⟩

/-! ## C6 — dimmer brightness/on-off consistency -/

lemma handleVersion_lights (st : NPUState) (parts : List String) (out : HandlerOut)
    (h : handleVersion st parts = some out) : out.state.lights = st.lights := by
  unfold handleVersion at h
  simp only [Option.bind_eq_bind, Option.bind_eq_some, Option.pure_def,
    Option.some_inj] at h
  obtain ⟨f1, hp, hout⟩ := h
  rw [← hout]

lemma handleInpstate_lights (st : NPUState) (parts : List String) (out : HandlerOut)
    (h : handleInpstate st parts = some out) : out.state.lights = st.lights := by
  unfold handleInpstate at h
  simp only [Option.bind_eq_bind, Option.bind_eq_some, Option.pure_def,
    Option.some_inj] at h
  obtain ⟨address, h1, channel, h3, f4, h4, code, hc, newstate, hn, hout⟩ := h
  rw [← hout]

lemma handleBtnstate_lights (st : NPUState) (parts : List String) (out : HandlerOut)
    (h : handleBtnstate st parts = some out) : out.state.lights = st.lights := by
  unfold handleBtnstate at h
  simp only [Option.bind_eq_bind, Option.bind_eq_some, Option.pure_def,
    Option.some_inj] at h
  obtain ⟨address, h1, channel, h3, f4, h4, code, hc, bname, hn, hout⟩ := h
  rw [← hout]

lemma handleModuleerr_lights (st : NPUState) (parts : List String) (out : HandlerOut)
    (h : handleModuleerr st parts = some out) : out.state.lights = st.lights := by
  unfold handleModuleerr at h
  simp only [Option.bind_eq_bind, Option.bind_eq_some, Option.pure_def,
    Option.some_inj] at h
  obtain ⟨addr, h1, devc, h2, dev, hd, f3, h3, statuscode, hs, hif⟩ := h
  split at hif
  · rw [Option.bind_eq_some] at hif
    obtain ⟨summary, hsum, hif⟩ := hif
    rw [Option.bind_eq_some] at hif
    obtain ⟨desc, hdesc, hout⟩ := hif
    injection hout with hout
    rw [← hout]
  · injection hif with hout
    rw [← hout]

lemma handleChanerr_lights (st : NPUState) (parts : List String) (out : HandlerOut)
    (h : handleChanerr st parts = some out) : out.state.lights = st.lights := by
  unfold handleChanerr at h
  simp only [Option.bind_eq_bind, Option.bind_eq_some, Option.pure_def,
    Option.some_inj] at h
  obtain ⟨addr, h1, devc, h2, dev, hd, chan, h3, f4, h4, statuscode, hs, hif⟩ := h
  split at hif
  · rw [Option.bind_eq_some] at hif
    obtain ⟨summary, hsum, hif⟩ := hif
    rw [Option.bind_eq_some] at hif
    obtain ⟨desc, hdesc, hout⟩ := hif
    injection hout with hout
    rw [← hout]
  · injection hif with hout
    rw [← hout]

lemma handleScnoffAck_lights (st : NPUState) (parts : List String) (out : HandlerOut)
    (h : handleScnoffAck st parts = some out) : out.state.lights = st.lights := by
  unfold handleScnoffAck at h
  simp only [Option.bind_eq_bind, Option.bind_eq_some, Option.pure_def,
    Option.some_inj] at h
  obtain ⟨f1, hp, hout⟩ := h
  rw [← hout]

lemma handleScnrecallAck_lights (st : NPUState) (parts : List String) (out : HandlerOut)
    (h : handleScnrecallAck st parts = some out) : out.state.lights = st.lights := by
  unfold handleScnrecallAck at h
  simp only [Option.bind_eq_bind, Option.bind_eq_some, Option.pure_def,
    Option.some_inj] at h
  obtain ⟨f1, hp, hout⟩ := h
  rw [← hout]

lemma handleScnstate_lights (st : NPUState) (parts : List String) (out : HandlerOut)
    (h : handleScnstate st parts = some out) : out.state.lights = st.lights := by
  unfold handleScnstate at h
  simp only [Option.bind_eq_bind, Option.bind_eq_some, Option.pure_def,
    Option.some_inj] at h
  obtain ⟨f1, hp, lvl, h3, hout⟩ := h
  rw [← hout]

/-- Every dimmer produced by the `!CHANFADE`/`!CHANLEVEL` lights loop either
is an untouched input dimmer or had both fields set from the same level. -/
lemma chanfadeLightsLoop_inv (parts : List String) :
    ∀ (ls ls' : List DimmerState) (cbs : List CbTarget),
      chanfadeLightsLoop parts ls = some (ls', cbs) →
      (∀ d ∈ ls, dimmerInv d) → ∀ d ∈ ls', dimmerInv d := by
  intro ls
  induction ls with
  | nil =>
    intro ls' cbs h _
    simp only [chanfadeLightsLoop, Option.some_inj, Prod.mk.injEq] at h
    rw [← h.1]
    simp
  | cons l rest ih =>
    intro ls' cbs h hinv
    have hl : dimmerInv l := hinv l (List.mem_cons_self l rest)
    have hrest : ∀ d ∈ rest, dimmerInv d := fun d hd => hinv d (List.mem_cons_of_mem _ hd)
    unfold chanfadeLightsLoop at h
    simp only [Option.bind_eq_bind] at h
    rw [Option.bind_eq_some] at h
    obtain ⟨chan, h3, hif⟩ := h
    split at hif
    · rw [Option.bind_eq_some] at hif
      obtain ⟨addr, h1, hif⟩ := hif
      split at hif
      · rw [Option.bind_eq_some] at hif
        obtain ⟨lvl, h4, hif⟩ := hif
        rw [Option.bind_eq_some] at hif
        obtain ⟨⟨ls2, cbs2⟩, hr, hout⟩ := hif
        injection hout with hout
        injection hout with h5 h6
        subst h5
        intro d hd
        rcases List.mem_cons.1 hd with hd | hd
        · exact hd ▸ Or.inr ⟨lvl, rfl, rfl⟩
        · exact ih ls2 cbs2 hr hrest d hd
      · rw [Option.bind_eq_some] at hif
        obtain ⟨⟨ls2, cbs2⟩, hr, hout⟩ := hif
        injection hout with hout
        injection hout with h5 h6
        subst h5
        intro d hd
        rcases List.mem_cons.1 hd with hd | hd
        · exact hd ▸ hl
        · exact ih ls2 cbs2 hr hrest d hd
    · rw [Option.bind_eq_some] at hif
      obtain ⟨⟨ls2, cbs2⟩, hr, hout⟩ := hif
      injection hout with hout
      injection hout with h5 h6
      subst h5
      intro d hd
      rcases List.mem_cons.1 hd with hd | hd
      · exact hd ▸ hl
      · exact ih ls2 cbs2 hr hrest d hd

lemma handleChanfade_lights_inv (st : NPUState) (parts : List String) (out : HandlerOut)
    (h : handleChanfade st parts = some out)
    (hinv : ∀ d ∈ st.lights, dimmerInv d) : ∀ d ∈ out.state.lights, dimmerInv d := by
  unfold handleChanfade at h
  simp only [Option.bind_eq_bind, Option.bind_eq_some, Option.pure_def,
    Option.some_inj] at h
  obtain ⟨⟨lights, cbsL⟩, hL, ⟨switches, cbsS⟩, hS, hout⟩ := h
  rw [← hout]
  exact chanfadeLightsLoop_inv parts st.lights lights cbsL hL hinv

/-- The dispatcher preserves the dimmer invariant across every branch. -/
lemma async_response_handler_lights_inv (st : NPUState) (now : ℚ) (response : String)
    (out : HandlerOut) (h : async_response_handler st now response = some out)
    (hinv : ∀ d ∈ st.lights, dimmerInv d) : ∀ d ∈ out.state.lights, dimmerInv d := by
  unfold async_response_handler at h
  by_cases hne : response = ""
  · rw [if_pos hne] at h
    cases h
    exact hinv
  · rw [if_neg hne] at h
    by_cases hok : strHasSub response "!OK;" = true
    · rw [if_pos hok] at h
      cases h
      exact hinv
    · rw [if_neg hok] at h
      rcases Option.map_eq_some'.1 h with ⟨out0, hres, hout⟩
      have hout0 : out.state = out0.state := by rw [← hout]
      rw [hout0]
      have hinv' : ∀ d ∈ ({ st with last_message_received := some now } : NPUState).lights,
          dimmerInv d := hinv
      by_cases hv : (pySplit response ',').headI = "!VERSION"
      · rw [if_pos hv] at hres
        exact (handleVersion_lights _ _ _ hres) ▸ hinv'
      · rw [if_neg hv] at hres
        by_cases hi : (pySplit response ',').headI = "!INPSTATE"
        · rw [if_pos hi] at hres
          exact (handleInpstate_lights _ _ _ hres) ▸ hinv'
        · rw [if_neg hi] at hres
          by_cases hb : (pySplit response ',').headI = "!BTNSTATE"
          · rw [if_pos hb] at hres
            exact (handleBtnstate_lights _ _ _ hres) ▸ hinv'
          · rw [if_neg hb] at hres
            by_cases hcf : (pySplit response ',').headI = "!CHANFADE" ∨ (pySplit response ',').headI = "!CHANLEVEL"
            · rw [if_pos hcf] at hres
              exact handleChanfade_lights_inv _ _ _ hres hinv'
            · rw [if_neg hcf] at hres
              by_cases hme : (pySplit response ',').headI = "!MODULEERR"
              · rw [if_pos hme] at hres
                exact (handleModuleerr_lights _ _ _ hres) ▸ hinv'
              · rw [if_neg hme] at hres
                by_cases hce : (pySplit response ',').headI = "!CHANERR"
                · rw [if_pos hce] at hres
                  exact (handleChanerr_lights _ _ _ hres) ▸ hinv'
                · rw [if_neg hce] at hres
                  by_cases hko : (pySplit response ',').headI = "!OK"
                  · rw [if_pos hko] at hres
                    cases hres; exact hinv'
                  · rw [if_neg hko] at hres
                    by_cases hso : (pySplit response ',').headI = "!SCNOFF"
                    · rw [if_pos hso] at hres
                      exact (handleScnoffAck_lights _ _ _ hres) ▸ hinv'
                    · rw [if_neg hso] at hres
                      by_cases hsr : (pySplit response ',').headI = "!SCNRECALL"
                      · rw [if_pos hsr] at hres
                        exact (handleScnrecallAck_lights _ _ _ hres) ▸ hinv'
                      · rw [if_neg hsr] at hres
                        by_cases hss : (pySplit response ',').headI = "!SCNSTATE"
                        · rw [if_pos hss] at hres
                          exact (handleScnstate_lights _ _ _ hres) ▸ hinv'
                        · rw [if_neg hss] at hres
                          cases hres; exact hinv'

/-- C6: for every dimmer, (1) the freshly constructed entity satisfies the
invariant with brightness unset and distinguishable from zero; (2)-(4)
`set_brightness`, `turn_on` and `turn_off` re-establish the invariant
whenever they complete; (5) dispatching any frame (in particular
`!CHANFADE`/`!CHANLEVEL`) preserves the invariant for every dimmer; and
(6) the invariant gives exactly the claimed consistency: brightness > 0 iff
on, brightness = 0 implies off. -/
theorem dimmer_brightness_on_off_invariant :
    (∀ (a c : Int) (n ar m : String) (dc : Int),
        dimmerInv (DimmerState.init a c n ar m dc) ∧
        (DimmerState.init a c n ar m dc).brightness = none ∧
        (DimmerState.init a c n ar m dc).brightness ≠ some 0) ∧
    (∀ (hub : HubProxy) (d : DimmerState) (i : Int) (ok : Bool)
        (d' : DimmerState) (msg : String),
        DimmerState.set_brightness hub d i ok = some (d', msg) → dimmerInv d') ∧
    (∀ (hub : HubProxy) (d : DimmerState) (ok : Bool) (d' : DimmerState) (msg : String),
        DimmerState.turn_on hub d ok = some (d', msg) → dimmerInv d') ∧
    (∀ (hub : HubProxy) (d : DimmerState) (ok : Bool) (d' : DimmerState) (msg : String),
        DimmerState.turn_off hub d ok = some (d', msg) → dimmerInv d') ∧
    (∀ (st : NPUState) (now : ℚ) (response : String) (out : HandlerOut),
        async_response_handler st now response = some out →
        (∀ d ∈ st.lights, dimmerInv d) → ∀ d ∈ out.state.lights, dimmerInv d) ∧
    (∀ d : DimmerState, dimmerInv d → ∀ b, d.brightness = some b →
        ((0 < b ↔ d.is_on = some true) ∧ (b = 0 → d.is_on = some false))) := by
  refine ⟨?_, ?_, ?_, ?_, ?_, ?_⟩
  · intro a c n ar m dc
    exact ⟨Or.inl rfl, rfl, by simp [DimmerState.init]⟩
  · intro hub d i ok d' msg h
    unfold DimmerState.set_brightness at h
    split at h
    · simp only [Option.bind_eq_bind] at h
      rw [Option.bind_eq_some] at h
      obtain ⟨scn, hscn, h⟩ := h
      rw [Option.bind_eq_some] at h
      obtain ⟨ft, hft, h⟩ := h
      split at h
      · injection h with h
        injection h with h5 h6
        rw [← h5]
        exact Or.inr ⟨i, rfl, rfl⟩
      · exact Option.noConfusion h
    · split at h
      · injection h with h
        injection h with h5 h6
        rw [← h5]
        exact Or.inr ⟨i, rfl, rfl⟩
      · exact Option.noConfusion h
  · intro hub d ok d' msg h
    unfold DimmerState.turn_on at h
    split at h
    · simp only [Option.bind_eq_bind] at h
      rw [Option.bind_eq_some] at h
      obtain ⟨scn, hscn, h⟩ := h
      split at h
      · injection h with h
        injection h with h5 h6
        rw [← h5]
        exact Or.inr ⟨255, rfl, rfl⟩
      · exact Option.noConfusion h
    · split at h
      · injection h with h
        injection h with h5 h6
        rw [← h5]
        exact Or.inr ⟨255, rfl, rfl⟩
      · exact Option.noConfusion h
  · intro hub d ok d' msg h
    unfold DimmerState.turn_off at h
    split at h
    · simp only [Option.bind_eq_bind] at h
      rw [Option.bind_eq_some] at h
      obtain ⟨scn, hscn, h⟩ := h
      split at h
      · injection h with h
        injection h with h5 h6
        rw [← h5]
        exact Or.inr ⟨0, rfl, rfl⟩
      · exact Option.noConfusion h
    · split at h
      · injection h with h
        injection h with h5 h6
        rw [← h5]
        exact Or.inr ⟨0, rfl, rfl⟩
      · exact Option.noConfusion h
  · exact async_response_handler_lights_inv
  · intro d hinv b hb
    rcases hinv with h | ⟨b', hb', hon⟩
    · rw [h] at hb; exact Option.noConfusion hb
    · rw [hb'] at hb
      injection hb with hb
      subst hb
      constructor
      · constructor
        · intro hpos
          rw [hon]
          simp [hpos]
        · intro htrue
          rw [hon] at htrue
          injection htrue with htrue
          simpa using htrue
      · intro hzero
        subst hzero
        rw [hon]
        simp

/-- C6 witness: the handler hypothesis conjunct applied to a concrete
`!CHANLEVEL` dispatch, and the consistency conjunct applied to the
resulting entity. -/
theorem dimmer_brightness_on_off_invariant_witness :
    (∀ d ∈ (⟨(⟨some "9", none,
        [⟨12, 3, "n", "a", "m", 12, some true, some 180⟩], [], [], some 0, none⟩ :
          NPUState), [], [], [CbTarget.light 12 3]⟩ : HandlerOut).state.lights,
      dimmerInv d) ∧
    (0 < (180 : Int) ↔ (some true : Option Bool) = some true) := by
  have happ := dimmer_brightness_on_off_invariant
  refine ⟨happ.2.2.2.2.1 ⟨some "9", none, [⟨12, 3, "n", "a", "m", 12, none, none⟩],
      [], [], none, none⟩ 0 "!CHANLEVEL,12,12,3,180,0;\n" _ rfl ?_, ?_⟩
  · intro d hd
    simp only [List.mem_singleton] at hd
    subst hd
    exact Or.inl rfl
  · exact (happ.2.2.2.2.2 ⟨12, 3, "n", "a", "m", 12, some true, some 180⟩
      (Or.inr ⟨180, rfl, rfl⟩) 180 rfl).1

/-! ## C5 / C10 — `!INPSTATE` dispatch -/

/-- Folding the sensor loop over a stretch with no matching sensor appends
it unchanged and leaves the flags and callback record alone. -/
lemma inpstate_fold_nomatch (address channel code : Int) :
    ∀ (l : List SensorState) (acc : List SensorState × Bool × Bool × List CbTarget),
      (∀ b ∈ l, ¬(b.channel = channel ∧ b.address = address)) →
      l.foldl (inpstateSensorStep address channel code) acc =
        (acc.1 ++ l, acc.2.1, acc.2.2.1, acc.2.2.2) := by
  intro l
  induction l with
  | nil => intro acc _; simp
  | cons b rest ih =>
    intro acc hb
    have hbm : ¬(b.channel = channel ∧ b.address = address) :=
      hb b (List.mem_cons_self b rest)
    rw [List.foldl_cons,
        ih _ (fun x hx => hb x (List.mem_cons_of_mem _ hx))]
    simp [inpstateSensorStep, if_neg hbm]

/-- Folding the sensor loop over a list with exactly one matching sensor:
the match is rewritten from the state code, `found` is set, the
discovery-priming flag reflects whether that sensor was still unprimed, and
its callback set is the only one iterated. -/
lemma inpstate_fold_single (address channel code : Int) (pre post : List SensorState)
    (bs : SensorState)
    (hbs : bs.channel = channel ∧ bs.address = address)
    (hpre : ∀ b ∈ pre, ¬(b.channel = channel ∧ b.address = address))
    (hpost : ∀ b ∈ post, ¬(b.channel = channel ∧ b.address = address)) :
    (pre ++ bs :: post).foldl (inpstateSensorStep address channel code)
        ([], false, false, []) =
      (pre ++ { bs with is_on := some (decide (code > 0)) } :: post, true,
       decide (bs.is_on = none), [CbTarget.sensor address channel]) := by
  rw [List.foldl_append, inpstate_fold_nomatch address channel code pre _ hpre,
      List.foldl_cons]
  have hstep : inpstateSensorStep address channel code ([] ++ pre, false, false, []) bs =
      (([] ++ pre) ++ [{ bs with is_on := some (decide (code > 0)) }], true,
       decide (bs.is_on = none), [] ++ [CbTarget.sensor address channel]) := by
    unfold inpstateSensorStep
    rw [if_pos hbs]
  rw [hstep, inpstate_fold_nomatch address channel code post _ hpost]
  simp

/-- C5: an `!INPSTATE` frame matching exactly one discovered binary sensor
updates that sensor's on/off state from the state code and iterates its
callback set; if this is the sensor's first state report (`_is_on` still
`None`, i.e. discovery-time priming) no button/input event is dispatched,
and otherwise exactly one event is dispatched whose symbolic name is the
`NEWSTATE_TO_BUTTONEVENT` entry for the state code and whose identity key
is `edinplus-<serial>-<address>-<channel>`. -/
theorem inpstate_first_report_primes_without_event (st : NPUState) (now : ℚ)
    (response : String) (address channel code : Int) (f1 f3 f4 ename : String)
    (pre post : List SensorState) (bs : SensorState)
    (hne : response ≠ "") (hok : strHasSub response "!OK;" = false)
    (hty : (pySplit response ',').headI = "!INPSTATE")
    (h1 : (pySplit response ',')[1]? = some f1) (h1i : pyInt f1 = some address)
    (h3 : (pySplit response ',')[3]? = some f3) (h3i : pyInt f3 = some channel)
    (h4 : (pySplit response ',')[4]? = some f4)
    (h4i : pyInt (pyTake f4 3) = some code)
    (hname : NEWSTATE_TO_BUTTONEVENT code = some ename)
    (hsens : st.binary_sensors = pre ++ bs :: post)
    (hbs : bs.channel = channel ∧ bs.address = address)
    (hpre : ∀ b ∈ pre, ¬(b.channel = channel ∧ b.address = address))
    (hpost : ∀ b ∈ post, ¬(b.channel = channel ∧ b.address = address)) :
    async_response_handler st now response =
      some ⟨{ st with
              last_message_received := some now,
              binary_sensors :=
                pre ++ { bs with is_on := some (decide (code > 0)) } :: post },
            if bs.is_on = none then []
            else [⟨mkDeviceUuid st.serial_num address channel, ename⟩],
            [],
            [CbTarget.sensor address channel]⟩ := by
  have hb1 : ((pySplit response ',')[1]?).bind pyInt = some address := by
    rw [h1]; exact h1i
  have hb3 : ((pySplit response ',')[3]?).bind pyInt = some channel := by
    rw [h3]; exact h3i
  unfold async_response_handler
  rw [if_neg hne, if_neg (by simp [hok]), hty,
      if_neg (show ¬("!INPSTATE" = "!VERSION") by decide), if_pos rfl,
      if_neg (show ¬("!INPSTATE" = "!GATRDY") by decide)]
  unfold handleInpstate
  simp only [Option.bind_eq_bind]
  rw [hb1]
  simp only [Option.some_bind]
  rw [hb3]
  simp only [Option.some_bind]
  rw [h4]
  simp only [Option.some_bind]
  rw [h4i]
  simp only [Option.some_bind]
  rw [hname]
  simp only [Option.some_bind]
  have hsens' : ({ st with last_message_received := some now } : NPUState).binary_sensors
      = pre ++ bs :: post := hsens
  rw [hsens', inpstate_fold_single address channel code pre post bs hbs hpre hpost]
  by_cases hprime : bs.is_on = none <;>
    simp [hprime, Option.map_some', mkDeviceUuid]

/-- C5 witness: a first report (sensor still unprimed) updates state and
fires callbacks with no event; a second report dispatches the event. -/
theorem inpstate_first_report_primes_without_event_witness :
    async_response_handler
        ⟨some "0123", none, [], [],
         [⟨12, 3, "n", "a", "m", 9, none⟩], none, none⟩ 0 "!INPSTATE,12,9,3,001;\n" =
      some ⟨⟨some "0123", none, [], [],
             [⟨12, 3, "n", "a", "m", 9, some true⟩], some 0, none⟩,
            [], [], [CbTarget.sensor 12 3]⟩ ∧
    async_response_handler
        ⟨some "0123", none, [], [],
         [⟨12, 3, "n", "a", "m", 9, some true⟩], none, none⟩ 0 "!INPSTATE,12,9,3,000;\n" =
      some ⟨⟨some "0123", none, [], [],
             [⟨12, 3, "n", "a", "m", 9, some false⟩], some 0, none⟩,
            [⟨"edinplus-0123-12-3", "Release-off"⟩], [], [CbTarget.sensor 12 3]⟩ := by
  constructor
  · exact inpstate_first_report_primes_without_event
      ⟨some "0123", none, [], [], [⟨12, 3, "n", "a", "m", 9, none⟩], none, none⟩ 0
      "!INPSTATE,12,9,3,001;\n" 12 3 1 "12" "3" "001;\n" "Press-on"
      [] [] ⟨12, 3, "n", "a", "m", 9, none⟩
      (by decide) (by decide) rfl rfl rfl rfl rfl rfl rfl rfl rfl
      ⟨rfl, rfl⟩ (by simp) (by simp)
  · exact inpstate_first_report_primes_without_event
      ⟨some "0123", none, [], [], [⟨12, 3, "n", "a", "m", 9, some true⟩], none, none⟩ 0
      "!INPSTATE,12,9,3,000;\n" 12 3 0 "12" "3" "000;\n" "Release-off"
      [] [] ⟨12, 3, "n", "a", "m", 9, some true⟩
      (by decide) (by decide) rfl rfl rfl rfl rfl rfl rfl rfl rfl
      ⟨rfl, rfl⟩ (by simp) (by simp)

/-- C10: an `!INPSTATE` frame matching no discovered binary sensor leaves
every entity untouched, logs the missing-entity warning, and still
dispatches exactly one button/input event with identity key
`edinplus-<serial>-<address>-<channel>` and the symbolic name for the state
code; `_dispatch_button_event` hands that payload to every registered
subscriber. -/
theorem inpstate_unmatched_still_dispatches (st : NPUState) (now : ℚ)
    (response : String) (address channel code : Int) (f1 f3 f4 ename serial : String)
    (hne : response ≠ "") (hok : strHasSub response "!OK;" = false)
    (hty : (pySplit response ',').headI = "!INPSTATE")
    (h1 : (pySplit response ',')[1]? = some f1) (h1i : pyInt f1 = some address)
    (h3 : (pySplit response ',')[3]? = some f3) (h3i : pyInt f3 = some channel)
    (h4 : (pySplit response ',')[4]? = some f4)
    (h4i : pyInt (pyTake f4 3) = some code)
    (hname : NEWSTATE_TO_BUTTONEVENT code = some ename)
    (hserial : st.serial_num = some serial)
    (hnomatch : ∀ b ∈ st.binary_sensors, ¬(b.channel = channel ∧ b.address = address)) :
    async_response_handler st now response =
      some ⟨{ st with last_message_received := some now },
            [⟨"edinplus-" ++ serial ++ "-" ++ pyStr address ++ "-" ++ pyStr channel,
              ename⟩],
            [Warn.sensorWithoutEntity address channel],
            []⟩ ∧
    (∀ (subs : List Nat) (cb : Nat), cb ∈ subs →
      (cb, (⟨"edinplus-" ++ serial ++ "-" ++ pyStr address ++ "-" ++ pyStr channel,
            ename⟩ : ButtonEvent)) ∈
        dispatch_button_event subs
          ⟨"edinplus-" ++ serial ++ "-" ++ pyStr address ++ "-" ++ pyStr channel,
           ename⟩) := by
  constructor
  · have hb1 : ((pySplit response ',')[1]?).bind pyInt = some address := by
      rw [h1]; exact h1i
    have hb3 : ((pySplit response ',')[3]?).bind pyInt = some channel := by
      rw [h3]; exact h3i
    unfold async_response_handler
    rw [if_neg hne, if_neg (by simp [hok]), hty,
        if_neg (show ¬("!INPSTATE" = "!VERSION") by decide), if_pos rfl,
        if_neg (show ¬("!INPSTATE" = "!GATRDY") by decide)]
    unfold handleInpstate
    simp only [Option.bind_eq_bind]
    rw [hb1]
    simp only [Option.some_bind]
    rw [hb3]
    simp only [Option.some_bind]
    rw [h4]
    simp only [Option.some_bind]
    rw [h4i]
    simp only [Option.some_bind]
    rw [hname]
    simp only [Option.some_bind]
    have hfold : List.foldl (inpstateSensorStep address channel code)
        ([], false, false, [])
        ({ st with last_message_received := some now } : NPUState).binary_sensors =
        (st.binary_sensors, false, false, []) := by
      rw [inpstate_fold_nomatch address channel code _ _ hnomatch]
      simp
    rw [hfold]
    simp [mkDeviceUuid, hserial, optStr, Option.map_some']
  · intro subs cb hcb
    exact List.mem_map_of_mem _ hcb

/-- C10 witness at a concrete unmatched frame (state with no sensors). -/
theorem inpstate_unmatched_still_dispatches_witness :
    async_response_handler ⟨some "0123", none, [], [], [], none, none⟩ 0
        "!INPSTATE,7,9,2,005;\n" =
      some ⟨⟨some "0123", none, [], [], [], some 0, none⟩,
            [⟨"edinplus-0123-7-2", "Short-press"⟩],
            [Warn.sensorWithoutEntity 7 2], []⟩ :=
  (inpstate_unmatched_still_dispatches
    ⟨some "0123", none, [], [], [], none, none⟩ 0 "!INPSTATE,7,9,2,005;\n"
    7 2 5 "7" "2" "005;\n" "Short-press" "0123"
    (by decide) (by decide) rfl rfl rfl rfl rfl rfl rfl rfl rfl
    (by simp)).1

end EdinPlus
